import Mathlib

/-!
Verification of the webhook-agent core of the `agents` repository:
the GitHub agent (`agents/github/src/github-agent.ts`) and the Linear agent
(`agents/linear/src/linear-agent.ts`).

External primitives (the WebCrypto HMAC digest, `JSON.parse`, the wall clock,
the provider API) are modelled as explicit parameters of the embedded
functions; everything else is translated line by line from the source.
-/

/-- JSON values, as produced by `JSON.parse`. -/
inductive Json where
  | null
  | bool (b : Bool)
  | num (n : Int)
  | str (s : String)
  | arr (elems : List Json)
  | obj (fields : List (String × Json))

/-- Lookup of a key in a JSON object's field list (first binding wins). -/
def jsonLookup : List (String × Json) → String → Option Json
  | [], _ => none
  | (k, v) :: rest, key => if k = key then some v else jsonLookup rest key

/-- `j?.key` in JavaScript: field access that yields `none` on non-objects
and on absent keys. -/
def Json.get? (j : Json) (key : String) : Option Json :=
  match j with
  | .obj fields => jsonLookup fields key
  | _ => none

/-- A JSON value read at a string-typed position (`x as string`). -/
def Json.asString? : Json → Option String
  | .str s => some s
  | _ => none

/-- A JSON value read at a number-typed position. -/
def Json.asInt? : Json → Option Int
  | .num n => some n
  | _ => none

/-- JavaScript falsiness of a nullable string (`!s` is true for `null` and
for the empty string). -/
def strFalsy : Option String → Bool
  | none => true
  | some s => s == ""

/-- `b.toString(16).padStart(2, "0")`: two-digit lowercase hex of a byte. -/
def byteToHex (b : Nat) : String :=
  let digits := Nat.toDigits 16 b
  String.mk (List.replicate (2 - digits.length) '0' ++ digits)

/-- `Array.from(bytes).map(b => b.toString(16).padStart(2, "0")).join("")`. -/
def bytesToHex (bs : List Nat) : String :=
  String.join (bs.map byteToHex)

/-- The constant-time comparison loop of both `verifySignature` methods:
`for (i...) mismatch |= expected.charCodeAt(i) ^ signature.charCodeAt(i)`. -/
def mismatchFold (expected sig : List Char) : Nat :=
  (List.zip expected sig).foldl (fun m p => m ||| (p.1.toNat ^^^ p.2.toNat)) 0

/-- `GitHubAgent.verifySignature` (github-agent.ts:239-270).  `hmac secret msg`
stands for the byte array produced by `crypto.subtle.sign("HMAC", key, msg)`
with an HMAC-SHA256 key imported from `secret`; the digest itself is an
external primitive, passed in as a parameter. -/
def GitHubAgent.verifySignature (hmac : String → String → List Nat)
    (secret payload signature : String) : Bool :=
  let expected := "sha256=" ++ bytesToHex (hmac secret payload)
  if expected.length ≠ signature.length then false
  else mismatchFold expected.data signature.data == 0

/-- `LinearAgent.verifySignature` (linear-agent.ts:161-189): identical to the
GitHub variant except that the expected hex digest carries no prefix. -/
def LinearAgent.verifySignature (hmac : String → String → List Nat)
    (secret payload signature : String) : Bool :=
  let expected := bytesToHex (hmac secret payload)
  if expected.length ≠ signature.length then false
  else mismatchFold expected.data signature.data == 0

/-- One row of the GitHub agent's `events` table (schema.ts). -/
structure EventRow where
  id : String
  type : String
  action : String
  title : String
  description : String
  url : String
  actor : String
  payload : String
  installation_id : Option Int
  timestamp : String
deriving DecidableEq

/-- The `lastEvent` component of the GitHub agent's broadcast state. -/
structure LastEvent where
  type : String
  action : String
  timestamp : String
deriving DecidableEq

/-- `AgentState` of the GitHub agent (types.ts). -/
structure AgentState where
  eventCount : Nat
  lastEvent : Option LastEvent
deriving DecidableEq

/-- `GitHubAgent.initialState` (github-agent.ts:15-18). -/
def GitHubAgent.initialState : AgentState :=
  { eventCount := 0, lastEvent := none }

/-- The parts of an inbound request the GitHub agent reads: method, the three
headers (a `none` models a `null` from `headers.get`), and the raw body. -/
structure GHRequest where
  method : String
  xHubSignature256 : Option String
  xGitHubDelivery : Option String
  xGitHubEvent : Option String
  body : String

/-- What `onRequest` produces at the HTTP boundary: a `Response` with a
status and text, or an exception escaping the handler. -/
inductive HttpOutcome where
  | response (status : Nat) (body : String)
  | thrown
deriving DecidableEq

/-- Instrumentation of the side operations a request execution performed. -/
structure Effects where
  dedupChecked : Bool
  bodyParsed : Bool
  rowInserted : Bool
  stateSet : Bool
  responderScheduled : Bool
  responderErrorLogged : Bool
deriving DecidableEq

/-- No side operation at all. -/
def noEffects : Effects :=
  ⟨false, false, false, false, false, false⟩

/-- Result of one `GitHubAgent.onRequest` run: HTTP outcome, the `events`
table afterwards, the broadcast state afterwards, and the effect trace. -/
structure GHOutcome where
  result : HttpOutcome
  rows : List EventRow
  state : AgentState
  effects : Effects
deriving DecidableEq

/-- First commit message of a push payload: `commits?.[0]?.message`. -/
def firstCommitMessage (payload : Json) : Option String :=
  match payload.get? "commits" with
  | some (.arr (c :: _)) => (c.get? "message").bind Json.asString?
  | _ => none

/-- Display fields extracted from a payload. -/
structure EventInfo where
  title : String
  description : String
  url : String
  actor : String
deriving DecidableEq

/-- `GitHubAgent.extractEventInfo` (github-agent.ts:272-329).  `slice(0, 500)`
is the 500-character truncation; the `default` branch is the unknown-type
fallback.  A `ref` absent from a push payload would be interpolated by the
template literal as the text `undefined`. -/
def GitHubAgent.extractEventInfo (eventType : String) (payload : Json) : EventInfo :=
  let actor := (((payload.get? "sender").bind (·.get? "login")).bind Json.asString?).getD "unknown"
  if eventType = "issues" then
    let issue := payload.get? "issue"
    { title := ((issue.bind (·.get? "title")).bind Json.asString?).getD ""
      description := String.mk ((((issue.bind (·.get? "body")).bind Json.asString?).getD "").data.take 500)
      url := ((issue.bind (·.get? "html_url")).bind Json.asString?).getD ""
      actor := actor }
  else if eventType = "pull_request" then
    let pr := payload.get? "pull_request"
    { title := ((pr.bind (·.get? "title")).bind Json.asString?).getD ""
      description := String.mk ((((pr.bind (·.get? "body")).bind Json.asString?).getD "").data.take 500)
      url := ((pr.bind (·.get? "html_url")).bind Json.asString?).getD ""
      actor := actor }
  else if eventType = "push" then
    { title := "Push to " ++ (((payload.get? "ref").bind Json.asString?).getD "undefined")
      description := (firstCommitMessage payload).getD ""
      url := ((payload.get? "compare").bind Json.asString?).getD ""
      actor := actor }
  else
    { title := eventType ++ " event"
      description := ""
      url := ""
      actor := actor }

/-- Whether an awaited promise failed (was rejected). -/
def exceptFailed : Except String Unit → Bool
  | .ok _ => false
  | .error _ => true

/-- `GitHubAgent.onRequest` (github-agent.ts:25-103), as a function of the
external primitives and the pre-state.  `hmac` is the HMAC-SHA256 digest,
`parse` is `JSON.parse` (`none` models a thrown `SyntaxError`), `now1` and
`now2` are the two successive `new Date().toISOString()` reads (line 77 and
line 90), and `handleEventOutcome` is whatever awaiting `this.handleEvent`
does — its error is caught and logged (lines 96-100). -/
def GitHubAgent.onRequest (hmac : String → String → List Nat) (secret : String)
    (parse : String → Option Json) (now1 now2 : String)
    (handleEventOutcome : Except String Unit)
    (rows : List EventRow) (state : AgentState) (req : GHRequest) : GHOutcome :=
  if req.method ≠ "POST" then
    ⟨.response 405 "Method not allowed", rows, state, noEffects⟩
  else
    let signature := req.xHubSignature256
    if strFalsy signature || !(GitHubAgent.verifySignature hmac secret req.body (signature.getD "")) then
      ⟨.response 401 "Invalid signature", rows, state, noEffects⟩
    else
      let deliveryId := req.xGitHubDelivery
      let eventType := req.xGitHubEvent
      if strFalsy eventType then
        ⟨.response 400 "Missing x-github-event header", rows, state, noEffects⟩
      else if strFalsy deliveryId then
        ⟨.response 400 "Missing delivery ID", rows, state, noEffects⟩
      else
        let d := deliveryId.getD ""
        let et := eventType.getD ""
        let existing := rows.filter (fun r => r.id == d)
        if existing.length > 0 then
          ⟨.response 200 "Event already processed", rows, state,
            { noEffects with dedupChecked := true }⟩
        else
          match parse req.body with
          | none =>
            ⟨.thrown, rows, state,
              { noEffects with dedupChecked := true, bodyParsed := true }⟩
          | some payload =>
            let action := ((payload.get? "action").bind Json.asString?).getD ""
            let installationId := ((payload.get? "installation").bind (·.get? "id")).bind Json.asInt?
            let info := GitHubAgent.extractEventInfo et payload
            let row : EventRow :=
              { id := d, type := et, action := action, title := info.title,
                description := info.description, url := info.url, actor := info.actor,
                payload := req.body, installation_id := installationId, timestamp := now1 }
            let rows' := rows ++ [row]
            let state' : AgentState :=
              { eventCount := rows'.length,
                lastEvent := some { type := et, action := action, timestamp := now2 } }
            ⟨.response 200 "OK", rows', state',
              { dedupChecked := true, bodyParsed := true, rowInserted := true,
                stateSet := true, responderScheduled := true,
                responderErrorLogged := exceptFailed handleEventOutcome }⟩

/-- Lexicographic order on character lists by code point; this is the order
SQLite's `ORDER BY` applies to the stored ISO-8601 `timestamp` TEXT column. -/
def lexLe : List Char → List Char → Bool
  | [], _ => true
  | _ :: _, [] => false
  | a :: as, b :: bs =>
    if a.toNat < b.toNat then true
    else if b.toNat < a.toNat then false
    else lexLe as bs

/-- Timestamp comparison used by the `ORDER BY` clauses. -/
def timestampLe (a b : String) : Bool :=
  lexLe a.data b.data

/-- What the storage engine guarantees for an `ORDER BY <key> DESC` clause
with no secondary sort key: the result is a permutation of the input rows
that is non-increasing in the key.  SQLite leaves the relative order of rows
with equal keys unspecified, so any function producing such a permutation is
a faithful reading of the query. -/
def IsSortedDescBy {α : Type} (key : α → String) (input result : List α) : Prop :=
  List.Perm result input ∧
    result.Pairwise (fun a b => timestampLe (key b) (key a) = true)

/-- `GitHubAgent.getEvents` (github-agent.ts:105-114): the storage engine's
`ORDER BY timestamp DESC` result — `sortDesc`, an external primitive
constrained only by `IsSortedDescBy EventRow.timestamp` — then `OFFSET`,
then `LIMIT`. -/
def GitHubAgent.getEvents (sortDesc : List EventRow → List EventRow)
    (rows : List EventRow) (limit offset : Nat) : List EventRow :=
  (((sortDesc rows).drop offset).take limit)

/-- `GitHubAgent.getEventsByType` (github-agent.ts:116-126): same with a
`WHERE type = ?` restriction applied before the engine sorts. -/
def GitHubAgent.getEventsByType (sortDesc : List EventRow → List EventRow)
    (rows : List EventRow) (type : String) (limit offset : Nat) : List EventRow :=
  (((sortDesc (rows.filter (fun r => r.type == type))).drop offset).take limit)

/-- Insertion step of a descending sort that places a row before the first
strictly smaller key, hence after all earlier rows of equal key. -/
def insertByKeyDesc {α : Type} (key : α → String) (r : α) : List α → List α
  | [] => [r]
  | x :: xs =>
    if !(timestampLe (key r) (key x)) then r :: x :: xs
    else x :: insertByKeyDesc key r xs

/-- One concrete storage-engine ordering consistent with
`ORDER BY <key> DESC`: sorted, a permutation of the input, and returning
equal-key rows in reverse input order — the order a descending index scan
produces.  It witnesses that the query does not pin down the tie order. -/
def sortDescRevTies {α : Type} (key : α → String) (rows : List α) : List α :=
  rows.foldr (insertByKeyDesc key) []

/-- One row of the Linear agent's `sessions` table (linear/src/schema.ts). -/
structure SessionRow where
  id : String
  workspace_id : String
  issue_id : String
  issue_identifier : String
  action : String
  prompt_context : String
  payload : String
  timestamp : String
deriving DecidableEq

/-- The `lastSession` component of the Linear agent's broadcast state. -/
structure LastSession where
  id : String
  action : String
  timestamp : String
deriving DecidableEq

/-- `AgentState` of the Linear agent. -/
structure LinearAgentState where
  sessionCount : Nat
  lastSession : Option LastSession
deriving DecidableEq

/-- `LinearAgent.initialState` (linear-agent.ts:23-26). -/
def LinearAgent.initialState : LinearAgentState :=
  { sessionCount := 0, lastSession := none }

/-- The parts of an inbound request the Linear agent reads. -/
structure LinearRequest where
  method : String
  linearSignature : Option String
  body : String

/-- Result of one `LinearAgent.onRequest` run. -/
structure LinearOutcome where
  result : HttpOutcome
  rows : List SessionRow
  state : LinearAgentState
  effects : Effects
deriving DecidableEq

/-- `payload.type !== "AgentSessionEvent"`, negated: true exactly when the
top-level `type` field is the string `"AgentSessionEvent"`. -/
def payloadTypeIsASE (payload : Json) : Bool :=
  match payload.get? "type" with
  | some (.str s) => s == "AgentSessionEvent"
  | _ => false

/-- `LinearAgent.onRequest` (linear-agent.ts:33-91).  `parse` is `JSON.parse`
(here wrapped in `try`/`catch`, so a failure is a 400 response); `now1` and
`now2` are the two `new Date().toISOString()` reads (line 72 and line 83).
The insert uses `onConflictDoNothing`, and `setState` plus
`ctx.waitUntil(handleSession ...)` run unconditionally afterwards. -/
def LinearAgent.onRequest (hmac : String → String → List Nat) (secret : String)
    (parse : String → Option Json) (now1 now2 : String)
    (rows : List SessionRow) (state : LinearAgentState) (req : LinearRequest) : LinearOutcome :=
  if req.method ≠ "POST" then
    ⟨.response 405 "Method not allowed", rows, state, noEffects⟩
  else
    let signature := req.linearSignature
    if strFalsy signature || !(LinearAgent.verifySignature hmac secret req.body (signature.getD "")) then
      ⟨.response 401 "Invalid signature", rows, state, noEffects⟩
    else
      match parse req.body with
      | none =>
        ⟨.response 400 "Invalid JSON", rows, state,
          { noEffects with bodyParsed := true }⟩
      | some payload =>
        if !(payloadTypeIsASE payload) then
          ⟨.response 200 "OK", rows, state,
            { noEffects with bodyParsed := true }⟩
        else
          let action := ((payload.get? "action").bind Json.asString?).getD ""
          let organizationId := ((payload.get? "organizationId").bind Json.asString?).getD ""
          let agentSession := payload.get? "agentSession"
          let sessionId := (agentSession.bind (·.get? "id")).bind Json.asString?
          if strFalsy sessionId then
            ⟨.response 400 "Missing agentSession", rows, state,
              { noEffects with bodyParsed := true }⟩
          else
            let sid := sessionId.getD ""
            let row : SessionRow :=
              { id := sid
                workspace_id := organizationId
                issue_id := (((agentSession.bind (·.get? "issue")).bind (·.get? "id")).bind Json.asString?).getD ""
                issue_identifier := (((agentSession.bind (·.get? "issue")).bind (·.get? "identifier")).bind Json.asString?).getD ""
                action := action
                prompt_context := ((agentSession.bind (·.get? "promptContext")).bind Json.asString?).getD ""
                payload := req.body
                timestamp := now1 }
            let duplicate := rows.any (fun r => r.id == sid)
            let rows' := if duplicate then rows else rows ++ [row]
            let state' : LinearAgentState :=
              { sessionCount := rows'.length,
                lastSession := some { id := sid, action := action, timestamp := now2 } }
            ⟨.response 200 "OK", rows', state',
              { dedupChecked := false, bodyParsed := true, rowInserted := !duplicate,
                stateSet := true, responderScheduled := true,
                responderErrorLogged := false }⟩

/-- `LinearAgent.getSessions` (linear-agent.ts:93-102): the storage engine's
`ORDER BY timestamp DESC` result — `sortD`, an external primitive constrained
only by `IsSortedDescBy SessionRow.timestamp` — then `OFFSET`, then
`LIMIT`. -/
def LinearAgent.getSessions (sortD : List SessionRow → List SessionRow)
    (rows : List SessionRow) (limit offset : Nat) : List SessionRow :=
  (((sortD rows).drop offset).take limit)

/-- What one `handleSession` run did: how many `thought`, `response` and
`error` activities it attempted, and whether an exception escaped it. -/
structure ResponderTrace where
  thoughts : Nat
  responses : Nat
  errorNotes : Nat
  escaped : Bool
deriving DecidableEq

/-- `LinearAgent.handleSession` (linear-agent.ts:106-121).  `thoughtFails`
and `responseFails` say whether the corresponding `emitActivity` network call
throws, `errorFails` whether the best-effort `emitError` throws.  The `catch`
attempts exactly one `emitError`, whose own failure is swallowed by
`.catch`. -/
def LinearAgent.handleSession (action : String)
    (thoughtFails responseFails _errorFails : Bool) : ResponderTrace :=
  if action == "created" || action == "prompted" then
    if thoughtFails then
      { thoughts := 1, responses := 0, errorNotes := 1, escaped := false }
    else if responseFails then
      { thoughts := 1, responses := 1, errorNotes := 1, escaped := false }
    else
      { thoughts := 1, responses := 1, errorNotes := 0, escaped := false }
  else
    { thoughts := 0, responses := 0, errorNotes := 0, escaped := false }

/-- The per-tenant durable storage of the GitHub agent: whether the `events`
schema exists, and the rows it holds. -/
structure GHStorage where
  schemaReady : Bool
  rows : List EventRow
deriving DecidableEq

/-- `migrate(this.db, migrations)`: idempotent schema creation; existing rows
are untouched. -/
def migrateEvents (s : GHStorage) : GHStorage :=
  { s with schemaReady := true }

/-- `GitHubAgent.onStart` (github-agent.ts:20-23) runs the migration and
nothing else.  The observable agent state after a cold start is the one the
hosting SDK restored from storage (`persisted`), or `initialState` when none
was ever persisted; `onStart` itself never reads the `events` table. -/
def GitHubAgent.onStart (s : GHStorage) (persisted : Option AgentState) :
    GHStorage × AgentState :=
  (migrateEvents s, persisted.getD GitHubAgent.initialState)

/-- The row with maximum `timestamp`, if any. -/
def maxByTimestamp : List EventRow → Option EventRow
  | [] => none
  | r :: rest =>
    match maxByTimestamp rest with
    | none => some r
    | some m => if timestampLe r.timestamp m.timestamp then some m else some r

/-- Modelled from the spec: `project(ledger) -> SummaryState`, computed as
`{ event_count: ledger.count(), last_event: derived from the row with maximum
received_at, or null if count=0 }` (spec §4.3).  Used to compare the state the
code publishes against the spec's projection. -/
def projectSummary (rows : List EventRow) : AgentState :=
  { eventCount := rows.length,
    lastEvent := (maxByTimestamp rows).map
      (fun r => { type := r.type, action := r.action, timestamp := r.timestamp }) }

/-- A degenerate HMAC digest used to instantiate the external-digest
parameter on concrete runs: every message digests to the single byte 0,
whose hex encoding is `"00"`. -/
def hmacStub : String → String → List Nat :=
  fun _ _ => [0]

/-- A `JSON.parse` instance that always throws (malformed body). -/
def parseFail : String → Option Json :=
  fun _ => none

/-- A `JSON.parse` instance returning the empty object. -/
def parseEmptyObj : String → Option Json :=
  fun _ => some (Json.obj [])

/-- A concrete stored GitHub event row. -/
def sampleEventRow : EventRow :=
  { id := "d1", type := "issues", action := "opened", title := "t",
    description := "", url := "", actor := "octocat", payload := "raw",
    installation_id := none, timestamp := "2024-01-01T00:00:00.000Z" }

/-- A second stored row, accepted later than `sampleEventRow`. -/
def sampleEventRow2 : EventRow :=
  { sampleEventRow with id := "d2", timestamp := "2024-01-02T00:00:00.000Z" }

/-- A stored row sharing its timestamp with `tieRowB`. -/
def tieRowA : EventRow :=
  sampleEventRow

/-- A distinct row with the same timestamp as `tieRowA`, inserted after
it. -/
def tieRowB : EventRow :=
  { sampleEventRow with id := "d2" }

/-- A concrete stored Linear session row. -/
def sampleSessionRow : SessionRow :=
  { id := "s1", workspace_id := "w1", issue_id := "", issue_identifier := "",
    action := "created", prompt_context := "", payload := "raw",
    timestamp := "2024-01-01T00:00:00.000Z" }

/-- A concrete `AgentSessionEvent` payload whose session id is `"s1"`. -/
def sampleASEPayload : Json :=
  Json.obj [("type", Json.str "AgentSessionEvent"), ("action", Json.str "created"),
    ("organizationId", Json.str "w1"),
    ("agentSession", Json.obj [("id", Json.str "s1")])]

/-- A `JSON.parse` instance returning `sampleASEPayload`. -/
def parseASE : String → Option Json :=
  fun _ => some sampleASEPayload

/-- The row the GitHub handler inserts for a fresh delivery
(github-agent.ts:67-78), as a function of its inputs. -/
def ghRowOf (d et body : String) (payload : Json) (now1 : String) : EventRow :=
  { id := d, type := et,
    action := ((payload.get? "action").bind Json.asString?).getD "",
    title := (GitHubAgent.extractEventInfo et payload).title,
    description := (GitHubAgent.extractEventInfo et payload).description,
    url := (GitHubAgent.extractEventInfo et payload).url,
    actor := (GitHubAgent.extractEventInfo et payload).actor,
    payload := body,
    installation_id := ((payload.get? "installation").bind (·.get? "id")).bind Json.asInt?,
    timestamp := now1 }

/-- The row the Linear handler inserts for a fresh session
(linear-agent.ts:62-75), as a function of its inputs. -/
def linearRowOf (sid body : String) (payload : Json) (now1 : String) : SessionRow :=
  { id := sid,
    workspace_id := ((payload.get? "organizationId").bind Json.asString?).getD "",
    issue_id := ((((payload.get? "agentSession").bind (·.get? "issue")).bind (·.get? "id")).bind Json.asString?).getD "",
    issue_identifier := ((((payload.get? "agentSession").bind (·.get? "issue")).bind (·.get? "identifier")).bind Json.asString?).getD "",
    action := ((payload.get? "action").bind Json.asString?).getD "",
    prompt_context := (((payload.get? "agentSession").bind (·.get? "promptContext")).bind Json.asString?).getD "",
    payload := body, timestamp := now1 }

/-- A `JSON.parse` instance returning a payload whose top-level `type` is not
`"AgentSessionEvent"`. -/
def parseOtherType : String → Option Json :=
  fun _ => some (Json.obj [("type", Json.str "Issue")])

/-- A 501-character commit message. -/
def longPushMessage : String :=
  String.mk (List.replicate 501 'a')

/-- A push payload whose first commit message has 501 characters. -/
def samplePushPayload : Json :=
  Json.obj [("ref", Json.str "refs/heads/main"),
    ("commits", Json.arr [Json.obj [("message", Json.str longPushMessage)]]),
    ("sender", Json.obj [("login", Json.str "octocat")])]

/-- A bitwise or of naturals is zero exactly when both sides are. -/
theorem nat_or_eq_zero {n m : Nat} : n ||| m = 0 ↔ n = 0 ∧ m = 0 := by
  constructor
  · intro h
    constructor
    · apply Nat.eq_of_testBit_eq
      intro i
      have hb := congrArg (fun x => Nat.testBit x i) h
      simp only [Nat.testBit_or, Nat.zero_testBit, Bool.or_eq_false_iff] at hb
      simp [hb.1]
    · apply Nat.eq_of_testBit_eq
      intro i
      have hb := congrArg (fun x => Nat.testBit x i) h
      simp only [Nat.testBit_or, Nat.zero_testBit, Bool.or_eq_false_iff] at hb
      simp [hb.2]
  · rintro ⟨rfl, rfl⟩
    rfl

/-- Characters with equal code points are equal. -/
theorem char_toNat_inj {a b : Char} (h : a.toNat = b.toNat) : a = b :=
  Char.eq_of_val_eq (UInt32.toNat.inj h)

/-- The or-accumulating fold is zero exactly when it starts at zero and every
xored pair of characters agrees. -/
theorem foldl_or_xor_eq_zero (l : List (Char × Char)) (m : Nat) :
    (l.foldl (fun acc p => acc ||| (p.1.toNat ^^^ p.2.toNat)) m = 0) ↔
      (m = 0 ∧ ∀ p ∈ l, p.1 = p.2) := by
  induction l generalizing m with
  | nil => simp
  | cons p rest ih =>
    simp only [List.foldl_cons, ih, List.mem_cons]
    constructor
    · rintro ⟨h0, hall⟩
      obtain ⟨hm, hx⟩ := nat_or_eq_zero.mp h0
      refine ⟨hm, ?_⟩
      rintro q (rfl | hq)
      · exact char_toNat_inj (Nat.xor_eq_zero.mp hx)
      · exact hall q hq
    · rintro ⟨hm, hall⟩
      refine ⟨?_, fun q hq => hall q (Or.inr hq)⟩
      rw [hm, Nat.zero_or, Nat.xor_eq_zero]
      exact congrArg Char.toNat (hall p (Or.inl rfl))

/-- Lists of equal length whose zipped pairs all agree are equal. -/
theorem eq_of_zip_forall_eq : ∀ {l1 l2 : List Char}, l1.length = l2.length →
    (∀ p ∈ List.zip l1 l2, p.1 = p.2) → l1 = l2
  | [], [], _, _ => rfl
  | [], _ :: _, hlen, _ => by simp at hlen
  | _ :: _, [], hlen, _ => by simp at hlen
  | a :: as, b :: bs, hlen, h => by
    have hab : a = b := h (a, b) (by simp [List.zip_cons_cons])
    have htail : as = bs := by
      apply eq_of_zip_forall_eq (by simpa using hlen)
      intro p hp
      exact h p (by simp [List.zip_cons_cons, hp])
    rw [hab, htail]

/-- Every pair in a list zipped with itself has equal components. -/
theorem fst_eq_snd_of_mem_zip_self : ∀ {l : List Char} {p : Char × Char},
    p ∈ List.zip l l → p.1 = p.2
  | a :: as, p, hp => by
    rcases List.mem_cons.mp (by simpa [List.zip_cons_cons] using hp) with h | h
    · rw [h]
    · exact fst_eq_snd_of_mem_zip_self h

/-- The mismatch accumulator is zero exactly when the two equal-length
character lists are equal. -/
theorem mismatchFold_eq_zero {l1 l2 : List Char} (hlen : l1.length = l2.length) :
    mismatchFold l1 l2 = 0 ↔ l1 = l2 := by
  unfold mismatchFold
  rw [foldl_or_xor_eq_zero]
  constructor
  · rintro ⟨-, hall⟩
    exact eq_of_zip_forall_eq hlen hall
  · rintro rfl
    exact ⟨rfl, fun p hp => fst_eq_snd_of_mem_zip_self hp⟩

/-- The guarded constant-time comparison of both verifiers accepts exactly
the expected string. -/
theorem constant_time_eq (expected sig : String) :
    ((if expected.length ≠ sig.length then false
      else mismatchFold expected.data sig.data == 0) = true) ↔ sig = expected := by
  by_cases h : expected.length = sig.length
  · rw [if_neg (by simpa using h), beq_iff_eq, mismatchFold_eq_zero h]
    constructor
    · intro hd
      exact (String.ext hd).symm
    · intro hs
      rw [hs]
  · rw [if_pos (by simpa using h)]
    simp only [Bool.false_eq_true, false_iff]
    intro hs
    exact h (by rw [hs])

/-- C3: `verifySignature` returns true exactly when the provided signature
equals the lowercase-hex HMAC-SHA256 digest of the raw body under the
configured secret — prefixed `"sha256="` for the GitHub agent and unprefixed
for the Linear agent; any mismatch (including a length mismatch, rejected by
the guard before the per-character loop) yields false, and the comparison is
a pure predicate of body, signature and secret. -/
theorem claim_C3_verifier_correct :
    ∀ (hmac : String → String → List Nat) (secret body sig : String),
      (GitHubAgent.verifySignature hmac secret body sig = true ↔
        sig = "sha256=" ++ bytesToHex (hmac secret body)) ∧
      (LinearAgent.verifySignature hmac secret body sig = true ↔
        sig = bytesToHex (hmac secret body)) := by
  intro hmac secret body sig
  exact ⟨constant_time_eq ("sha256=" ++ bytesToHex (hmac secret body)) sig,
    constant_time_eq (bytesToHex (hmac secret body)) sig⟩

/-- `lexLe` on a cons pair, unfolded into a disjunction. -/
theorem lexLe_cons_iff {a b : Char} {as bs : List Char} :
    lexLe (a :: as) (b :: bs) = true ↔
      (a.toNat < b.toNat ∨ (a.toNat = b.toNat ∧ lexLe as bs = true)) := by
  by_cases h1 : a.toNat < b.toNat
  · simp [lexLe, h1]
  · by_cases h2 : b.toNat < a.toNat
    · simp only [lexLe, if_neg h1, if_pos h2]
      constructor
      · intro h
        exact absurd h (by simp)
      · rintro (h | ⟨h, -⟩) <;> omega
    · have he : a.toNat = b.toNat := by omega
      simp [lexLe, h1, h2, he]

/-- `lexLe` is reflexive. -/
theorem lexLe_refl : ∀ (a : List Char), lexLe a a = true
  | [] => rfl
  | a :: as => by
    rw [lexLe_cons_iff]
    exact Or.inr ⟨rfl, lexLe_refl as⟩

/-- `lexLe` is total. -/
theorem lexLe_total : ∀ (a b : List Char), (lexLe a b || lexLe b a) = true
  | [], _ => by simp [lexLe]
  | _ :: _, [] => by simp [lexLe]
  | a :: as, b :: bs => by
    rcases Nat.lt_trichotomy a.toNat b.toNat with h | h | h
    · simp [lexLe_cons_iff, h]
    · have := lexLe_total as bs
      rcases Bool.or_eq_true_iff.mp this with ht | ht <;>
        simp [lexLe_cons_iff, h, ht]
    · simp [lexLe_cons_iff, h]

/-- `lexLe` is transitive. -/
theorem lexLe_trans : ∀ (a b c : List Char),
    lexLe a b = true → lexLe b c = true → lexLe a c = true
  | [], _, _, _, _ => rfl
  | _ :: _, [], _, h, _ => by simp [lexLe] at h
  | _ :: _, _ :: _, [], _, h => by simp [lexLe] at h
  | a :: as, b :: bs, c :: cs, h1, h2 => by
    rw [lexLe_cons_iff] at h1 h2 ⊢
    rcases h1 with h1 | ⟨h1e, h1t⟩ <;> rcases h2 with h2 | ⟨h2e, h2t⟩
    · exact Or.inl (Nat.lt_trans h1 h2)
    · exact Or.inl (h2e ▸ h1)
    · exact Or.inl (h1e ▸ h2)
    · exact Or.inr ⟨h1e.trans h2e, lexLe_trans as bs cs h1t h2t⟩

/-- Inserting with `insertByKeyDesc` permutes consing. -/
theorem insertByKeyDesc_perm {α : Type} (key : α → String) (r : α) :
    ∀ l : List α, List.Perm (insertByKeyDesc key r l) (r :: l)
  | [] => List.Perm.refl _
  | x :: xs => by
    unfold insertByKeyDesc
    split
    · exact List.Perm.refl _
    · exact ((insertByKeyDesc_perm key r xs).cons x).trans (List.Perm.swap r x xs)

/-- `insertByKeyDesc` preserves descending sortedness of the key. -/
theorem insertByKeyDesc_pairwise {α : Type} (key : α → String) (r : α) :
    ∀ l : List α, l.Pairwise (fun a b => timestampLe (key b) (key a) = true) →
      (insertByKeyDesc key r l).Pairwise (fun a b => timestampLe (key b) (key a) = true)
  | [], _ => List.pairwise_singleton _ _
  | x :: xs, h => by
    rw [List.pairwise_cons] at h
    unfold insertByKeyDesc
    by_cases hc : timestampLe (key r) (key x) = true
    · rw [if_neg (by simp [hc])]
      rw [List.pairwise_cons]
      refine ⟨?_, insertByKeyDesc_pairwise key r xs h.2⟩
      intro y hy
      rcases List.mem_cons.mp ((insertByKeyDesc_perm key r xs).mem_iff.mp hy) with rfl | hy2
      · exact hc
      · exact h.1 y hy2
    · have hcf : timestampLe (key r) (key x) = false := by
        revert hc
        cases timestampLe (key r) (key x) <;> simp
      have hxr : timestampLe (key x) (key r) = true := by
        rcases Bool.or_eq_true_iff.mp (lexLe_total (key r).data (key x).data) with h1 | h1
        · rw [show timestampLe (key r) (key x) = lexLe (key r).data (key x).data from rfl,
            h1] at hcf
          exact absurd hcf (by simp)
        · exact h1
      rw [if_pos (by simp [hcf])]
      rw [List.pairwise_cons]
      constructor
      · intro y hy
        rcases List.mem_cons.mp hy with rfl | hy2
        · exact hxr
        · exact lexLe_trans _ _ _ (h.1 y hy2) hxr
      · exact List.pairwise_cons.mpr ⟨h.1, h.2⟩

/-- The reverse-tie descending sort satisfies the `ORDER BY` contract on
every input. -/
theorem sortDescRevTies_spec {α : Type} (key : α → String) :
    ∀ rows : List α, IsSortedDescBy key rows (sortDescRevTies key rows)
  | [] => ⟨List.Perm.refl _, List.Pairwise.nil⟩
  | r :: rest => by
    have ih := sortDescRevTies_spec key rest
    constructor
    · exact (insertByKeyDesc_perm key r (sortDescRevTies key rest)).trans (ih.1.cons r)
    · exact insertByKeyDesc_pairwise key r (sortDescRevTies key rest) ih.2

/-- C5 (amended): for every storage-engine ordering satisfying the
`ORDER BY timestamp DESC` contract, every ledger contents and every
limit/offset, `getEvents`, `getEventsByType` and `getSessions` return rows
in non-increasing `timestamp` order, and when the ledger's timestamps are
strictly increasing in acceptance order, the first row `getEvents` returns
is the most recently accepted event.  The relative order of rows with equal
timestamps is not part of the contract: the query has no secondary sort key,
so the engine may return ties in any order. -/
theorem claim_C5_query_ordering :
    (∀ (sortDesc : List EventRow → List EventRow),
      (∀ rs, IsSortedDescBy EventRow.timestamp rs (sortDesc rs)) →
      (∀ (rows : List EventRow) (limit offset : Nat),
        (GitHubAgent.getEvents sortDesc rows limit offset).Pairwise
          (fun a b => timestampLe b.timestamp a.timestamp = true)) ∧
      (∀ (rows : List EventRow) (type : String) (limit offset : Nat),
        (GitHubAgent.getEventsByType sortDesc rows type limit offset).Pairwise
          (fun a b => timestampLe b.timestamp a.timestamp = true)) ∧
      (∀ (rows : List EventRow) (limit : Nat), 1 ≤ limit → ∀ (hne : rows ≠ []),
        rows.Pairwise (fun a b => timestampLe b.timestamp a.timestamp = false) →
        (GitHubAgent.getEvents sortDesc rows limit 0).head? = some (rows.getLast hne))) ∧
    (∀ (sortD : List SessionRow → List SessionRow),
      (∀ rs, IsSortedDescBy SessionRow.timestamp rs (sortD rs)) →
      ∀ (rows : List SessionRow) (limit offset : Nat),
        (LinearAgent.getSessions sortD rows limit offset).Pairwise
          (fun a b => timestampLe b.timestamp a.timestamp = true)) := by
  constructor
  · intro sortDesc hspec
    refine ⟨?_, ?_, ?_⟩
    · intro rows limit offset
      exact List.Pairwise.sublist ((List.take_sublist _ _).trans (List.drop_sublist _ _))
        (hspec rows).2
    · intro rows type limit offset
      exact List.Pairwise.sublist ((List.take_sublist _ _).trans (List.drop_sublist _ _))
        (hspec (rows.filter (fun r => r.type == type))).2
    · intro rows limit hlim hne hstrict
      have hperm := (hspec rows).1
      have hsorted := (hspec rows).2
      have hLne : sortDesc rows ≠ [] := by
        intro h0
        exact hne (List.eq_nil_of_length_eq_zero (by rw [← hperm.length_eq, h0]; rfl))
      obtain ⟨h, t, hht⟩ := List.exists_cons_of_ne_nil hLne
      have hhead : (GitHubAgent.getEvents sortDesc rows limit 0).head? = some h := by
        unfold GitHubAgent.getEvents
        rw [List.drop_zero, hht]
        cases limit with
        | zero => omega
        | succ n => rfl
      have hmmem : rows.getLast hne ∈ sortDesc rows :=
        hperm.mem_iff.mpr (List.getLast_mem hne)
      rw [hht] at hmmem hsorted
      rcases List.mem_cons.mp hmmem with heq | hmt
      · rw [hhead, heq]
      · exfalso
        have hle : timestampLe (rows.getLast hne).timestamp h.timestamp = true :=
          (List.pairwise_cons.mp hsorted).1 _ hmt
        have hhrows : h ∈ rows :=
          hperm.mem_iff.mp (by rw [hht]; exact List.mem_cons_self h t)
        have hsplit : rows.dropLast ++ [rows.getLast hne] = rows :=
          List.dropLast_append_getLast hne
        rcases List.mem_append.mp (hsplit ▸ hhrows) with hdl | hsing
        · have hpa := List.pairwise_append.mp (hsplit ▸ hstrict)
          have hfalse : timestampLe (rows.getLast hne).timestamp h.timestamp = false :=
            hpa.2.2 h hdl (rows.getLast hne) (List.mem_singleton_self _)
          rw [hfalse] at hle
          exact Bool.false_ne_true hle
        · -- Here the head of the sorted result is itself the last ledger row
          -- while the last ledger row also sits in the sorted tail; the
          -- result would contain that row twice, impossible for a
          -- permutation of a strictly increasing (hence duplicate-free)
          -- ledger.
          have heq2 : h = rows.getLast hne := List.mem_singleton.mp hsing
          subst heq2
          have hnodup : rows.Nodup := by
            refine hstrict.imp ?_
            intro a b hab habeq
            rw [habeq, show timestampLe b.timestamp b.timestamp = true from lexLe_refl _]
              at hab
            exact Bool.false_ne_true hab.symm
          have hcount2 : 2 ≤ rows.count (rows.getLast hne) := by
            rw [← hperm.count_eq, hht, List.count_cons_self]
            have hcz : t.count (rows.getLast hne) ≠ 0 := by
              intro h0
              exact (List.count_eq_zero.mp h0) hmt
            omega
          have hle1 := List.nodup_iff_count_le_one.mp hnodup (rows.getLast hne)
          omega
  · intro sortD hspec rows limit offset
    exact List.Pairwise.sublist ((List.take_sublist _ _).trans (List.drop_sublist _ _))
      (hspec rows).2

/-- The GitHub handler's unauthorized path: a missing, empty, or failing
signature is rejected with 401 and nothing else happens. -/
theorem gh_unauthorized (hmac : String → String → List Nat) (secret : String)
    (parse : String → Option Json) (now1 now2 : String) (hevt : Except String Unit)
    (rows : List EventRow) (state : AgentState) (req : GHRequest)
    (hpost : req.method = "POST")
    (hsig : req.xHubSignature256 = none ∨
      ∃ s, req.xHubSignature256 = some s ∧
        GitHubAgent.verifySignature hmac secret req.body s = false) :
    GitHubAgent.onRequest hmac secret parse now1 now2 hevt rows state req =
      ⟨.response 401 "Invalid signature", rows, state, noEffects⟩ := by
  unfold GitHubAgent.onRequest
  rw [if_neg (by simp [hpost])]
  rcases hsig with hnone | ⟨s, hs, hv⟩
  · rw [hnone]
    simp [strFalsy]
  · rw [hs]
    simp [strFalsy, hv]

/-- The Linear handler's unauthorized path. -/
theorem linear_unauthorized (hmac : String → String → List Nat) (secret : String)
    (parse : String → Option Json) (now1 now2 : String)
    (rows : List SessionRow) (state : LinearAgentState) (req : LinearRequest)
    (hpost : req.method = "POST")
    (hsig : req.linearSignature = none ∨
      ∃ s, req.linearSignature = some s ∧
        LinearAgent.verifySignature hmac secret req.body s = false) :
    LinearAgent.onRequest hmac secret parse now1 now2 rows state req =
      ⟨.response 401 "Invalid signature", rows, state, noEffects⟩ := by
  unfold LinearAgent.onRequest
  rw [if_neg (by simp [hpost])]
  rcases hsig with hnone | ⟨s, hs, hv⟩
  · rw [hnone]
    simp [strFalsy]
  · rw [hs]
    simp [strFalsy, hv]

/-- The GitHub handler's duplicate path: a known delivery id is answered 200
with no insert, no state update and no responder run. -/
theorem gh_duplicate (hmac : String → String → List Nat) (secret : String)
    (parse : String → Option Json) (now1 now2 : String) (hevt : Except String Unit)
    (rows : List EventRow) (state : AgentState) (sig d et body : String)
    (hv : GitHubAgent.verifySignature hmac secret body sig = true)
    (hsig : sig ≠ "") (het : et ≠ "") (hd : d ≠ "")
    (hdup : 0 < (rows.filter (fun r => r.id == d)).length) :
    GitHubAgent.onRequest hmac secret parse now1 now2 hevt rows state
      ⟨"POST", some sig, some d, some et, body⟩ =
      ⟨.response 200 "Event already processed", rows, state,
        { noEffects with dedupChecked := true }⟩ := by
  unfold GitHubAgent.onRequest
  rw [if_neg (by simp)]
  rw [if_neg (by simp [strFalsy, hsig, hv])]
  rw [if_neg (by simp [strFalsy, het])]
  rw [if_neg (by simp [strFalsy, hd])]
  rw [if_pos (by simpa using hdup)]

/-- The GitHub handler's malformed-JSON path: after a fresh delivery id, the
un-caught `JSON.parse` exception escapes `onRequest` with nothing stored. -/
theorem gh_thrown (hmac : String → String → List Nat) (secret : String)
    (parse : String → Option Json) (now1 now2 : String) (hevt : Except String Unit)
    (rows : List EventRow) (state : AgentState) (sig d et body : String)
    (hv : GitHubAgent.verifySignature hmac secret body sig = true)
    (hsig : sig ≠ "") (het : et ≠ "") (hd : d ≠ "")
    (hfresh : (rows.filter (fun r => r.id == d)).length = 0)
    (hparse : parse body = none) :
    GitHubAgent.onRequest hmac secret parse now1 now2 hevt rows state
      ⟨"POST", some sig, some d, some et, body⟩ =
      ⟨.thrown, rows, state,
        { noEffects with dedupChecked := true, bodyParsed := true }⟩ := by
  unfold GitHubAgent.onRequest
  rw [if_neg (by simp)]
  rw [if_neg (by simp [strFalsy, hsig, hv])]
  rw [if_neg (by simp [strFalsy, het])]
  rw [if_neg (by simp [strFalsy, hd])]
  rw [if_neg (by simp [hfresh])]
  rw [hparse]

/-- The GitHub handler's accept path: a fresh, well-signed, well-formed
delivery is stored, the state republished, and the responder run. -/
theorem gh_accept (hmac : String → String → List Nat) (secret : String)
    (parse : String → Option Json) (now1 now2 : String) (hevt : Except String Unit)
    (rows : List EventRow) (state : AgentState) (sig d et body : String) (payload : Json)
    (hv : GitHubAgent.verifySignature hmac secret body sig = true)
    (hsig : sig ≠ "") (het : et ≠ "") (hd : d ≠ "")
    (hfresh : (rows.filter (fun r => r.id == d)).length = 0)
    (hparse : parse body = some payload) :
    GitHubAgent.onRequest hmac secret parse now1 now2 hevt rows state
      ⟨"POST", some sig, some d, some et, body⟩ =
      ⟨.response 200 "OK",
        rows ++ [ghRowOf d et body payload now1],
        ⟨(rows ++ [ghRowOf d et body payload now1]).length,
          some ⟨et, ((payload.get? "action").bind Json.asString?).getD "", now2⟩⟩,
        ⟨true, true, true, true, true, exceptFailed hevt⟩⟩ := by
  unfold GitHubAgent.onRequest
  rw [if_neg (by simp)]
  rw [if_neg (by simp [strFalsy, hsig, hv])]
  rw [if_neg (by simp [strFalsy, het])]
  rw [if_neg (by simp [strFalsy, hd])]
  rw [if_neg (by simp [hfresh])]
  rw [hparse]
  rfl

/-- The Linear handler's malformed-JSON path: caught and answered 400 with
nothing stored. -/
theorem linear_invalid_json (hmac : String → String → List Nat) (secret : String)
    (parse : String → Option Json) (now1 now2 : String)
    (rows : List SessionRow) (state : LinearAgentState) (sig body : String)
    (hv : LinearAgent.verifySignature hmac secret body sig = true)
    (hsig : sig ≠ "")
    (hparse : parse body = none) :
    LinearAgent.onRequest hmac secret parse now1 now2 rows state ⟨"POST", some sig, body⟩ =
      ⟨.response 400 "Invalid JSON", rows, state,
        { noEffects with bodyParsed := true }⟩ := by
  unfold LinearAgent.onRequest
  rw [if_neg (by simp)]
  rw [if_neg (by simp [strFalsy, hsig, hv])]
  rw [hparse]

/-- The Linear handler's event-type filter: a payload whose top-level `type`
is not the string `"AgentSessionEvent"` is answered 200 with nothing else
done. -/
theorem linear_filtered (hmac : String → String → List Nat) (secret : String)
    (parse : String → Option Json) (now1 now2 : String)
    (rows : List SessionRow) (state : LinearAgentState) (sig body : String) (payload : Json)
    (hv : LinearAgent.verifySignature hmac secret body sig = true)
    (hsig : sig ≠ "")
    (hparse : parse body = some payload)
    (hty : payloadTypeIsASE payload = false) :
    LinearAgent.onRequest hmac secret parse now1 now2 rows state ⟨"POST", some sig, body⟩ =
      ⟨.response 200 "OK", rows, state,
        { noEffects with bodyParsed := true }⟩ := by
  unfold LinearAgent.onRequest
  rw [if_neg (by simp)]
  rw [if_neg (by simp [strFalsy, hsig, hv])]
  simp only [hparse, hty, Bool.not_false, if_true]

/-- The Linear handler's `AgentSessionEvent` path: the insert is skipped when
the session id already exists (`onConflictDoNothing`), and `setState` and the
responder scheduling happen unconditionally. -/
theorem linear_accept (hmac : String → String → List Nat) (secret : String)
    (parse : String → Option Json) (now1 now2 : String)
    (rows : List SessionRow) (state : LinearAgentState) (sig body sid : String) (payload : Json)
    (hv : LinearAgent.verifySignature hmac secret body sig = true)
    (hsig : sig ≠ "")
    (hparse : parse body = some payload)
    (hty : payloadTypeIsASE payload = true)
    (hsid : ((payload.get? "agentSession").bind (·.get? "id")).bind Json.asString? = some sid)
    (hsidne : sid ≠ "") :
    LinearAgent.onRequest hmac secret parse now1 now2 rows state ⟨"POST", some sig, body⟩ =
      ⟨.response 200 "OK",
        (if rows.any (fun r => r.id == sid) then rows
          else rows ++ [linearRowOf sid body payload now1]),
        ⟨(if rows.any (fun r => r.id == sid) then rows
          else rows ++ [linearRowOf sid body payload now1]).length,
          some ⟨sid, ((payload.get? "action").bind Json.asString?).getD "", now2⟩⟩,
        ⟨false, true, !(rows.any (fun r => r.id == sid)), true, true, false⟩⟩ := by
  have hb : (sid == "") = false := by
    simp [hsidne]
  unfold LinearAgent.onRequest
  rw [if_neg (by simp)]
  rw [if_neg (by simp [strFalsy, hsig, hv])]
  simp only [hparse, hty, Bool.not_true, if_false, hsid, strFalsy, hb, linearRowOf,
    Bool.false_eq_true, Option.getD_some]

/-- C1 (amended): a duplicate delivery is answered with the same 200 success
as the first submission and the ledger keeps exactly one row for the id in
both agents; the GitHub agent additionally performs no insert, no state
update/publish and no responder run on the duplicate, while the Linear agent
leaves the table and the count unchanged but does call `setState` again
(republishing) and does schedule the responder again. -/
theorem claim_C1_idempotent_acceptance :
    (∀ (hmac : String → String → List Nat) (secret : String) (parse : String → Option Json)
      (now1 now2 : String) (hevt : Except String Unit) (rows : List EventRow)
      (state : AgentState) (sig d et body : String),
      GitHubAgent.verifySignature hmac secret body sig = true → sig ≠ "" → et ≠ "" → d ≠ "" →
      (rows.filter (fun r => r.id == d)).length = 1 →
      (GitHubAgent.onRequest hmac secret parse now1 now2 hevt rows state
          ⟨"POST", some sig, some d, some et, body⟩).result =
        .response 200 "Event already processed" ∧
      (GitHubAgent.onRequest hmac secret parse now1 now2 hevt rows state
          ⟨"POST", some sig, some d, some et, body⟩).rows = rows ∧
      (GitHubAgent.onRequest hmac secret parse now1 now2 hevt rows state
          ⟨"POST", some sig, some d, some et, body⟩).state = state ∧
      ((GitHubAgent.onRequest hmac secret parse now1 now2 hevt rows state
          ⟨"POST", some sig, some d, some et, body⟩).rows.filter
            (fun r => r.id == d)).length = 1 ∧
      (GitHubAgent.onRequest hmac secret parse now1 now2 hevt rows state
          ⟨"POST", some sig, some d, some et, body⟩).effects.rowInserted = false ∧
      (GitHubAgent.onRequest hmac secret parse now1 now2 hevt rows state
          ⟨"POST", some sig, some d, some et, body⟩).effects.stateSet = false ∧
      (GitHubAgent.onRequest hmac secret parse now1 now2 hevt rows state
          ⟨"POST", some sig, some d, some et, body⟩).effects.responderScheduled = false) ∧
    (∀ (hmac : String → String → List Nat) (secret : String) (parse : String → Option Json)
      (now1 now2 : String) (rows : List SessionRow) (state : LinearAgentState)
      (sig body sid : String) (payload : Json),
      LinearAgent.verifySignature hmac secret body sig = true → sig ≠ "" →
      parse body = some payload → payloadTypeIsASE payload = true →
      ((payload.get? "agentSession").bind (·.get? "id")).bind Json.asString? = some sid →
      sid ≠ "" →
      rows.any (fun r => r.id == sid) = true →
      (rows.filter (fun r => r.id == sid)).length = 1 →
      (LinearAgent.onRequest hmac secret parse now1 now2 rows state
          ⟨"POST", some sig, body⟩).result = .response 200 "OK" ∧
      (LinearAgent.onRequest hmac secret parse now1 now2 rows state
          ⟨"POST", some sig, body⟩).rows = rows ∧
      ((LinearAgent.onRequest hmac secret parse now1 now2 rows state
          ⟨"POST", some sig, body⟩).rows.filter (fun r => r.id == sid)).length = 1 ∧
      (LinearAgent.onRequest hmac secret parse now1 now2 rows state
          ⟨"POST", some sig, body⟩).state.sessionCount = rows.length ∧
      (LinearAgent.onRequest hmac secret parse now1 now2 rows state
          ⟨"POST", some sig, body⟩).effects.rowInserted = false ∧
      (LinearAgent.onRequest hmac secret parse now1 now2 rows state
          ⟨"POST", some sig, body⟩).effects.stateSet = true ∧
      (LinearAgent.onRequest hmac secret parse now1 now2 rows state
          ⟨"POST", some sig, body⟩).effects.responderScheduled = true) := by
  constructor
  · intro hmac secret parse now1 now2 hevt rows state sig d et body hv hsig het hd hdup
    rw [gh_duplicate hmac secret parse now1 now2 hevt rows state sig d et body hv hsig het hd
      (by omega)]
    exact ⟨rfl, rfl, rfl, hdup, rfl, rfl, rfl⟩
  · intro hmac secret parse now1 now2 rows state sig body sid payload hv hsig hparse hty hsid
      hsidne hany hcount
    rw [linear_accept hmac secret parse now1 now2 rows state sig body sid payload hv hsig hparse
      hty hsid hsidne]
    refine ⟨rfl, ?_, ?_, ?_, ?_, rfl, rfl⟩
    · simp [hany]
    · simp [hany, hcount]
    · simp [hany]
    · simp [hany]

/-- Instantiation of the idempotent-acceptance theorem on concrete duplicate
deliveries for both agents. -/
theorem claim_C1_witness :
    (GitHubAgent.onRequest hmacStub "sec" parseFail "T" "T" (.ok ()) [sampleEventRow]
        GitHubAgent.initialState
        ⟨"POST", some "sha256=00", some "d1", some "issues", "raw"⟩).rows = [sampleEventRow] ∧
    (LinearAgent.onRequest hmacStub "sec" parseASE "T" "T" [sampleSessionRow]
        LinearAgent.initialState ⟨"POST", some "00", "raw"⟩).state.sessionCount = 1 := by
  constructor
  · exact (claim_C1_idempotent_acceptance.1 hmacStub "sec" parseFail "T" "T" (.ok ())
      [sampleEventRow] GitHubAgent.initialState "sha256=00" "d1" "issues" "raw"
      (by decide) (by decide) (by decide) (by decide) (by decide)).2.1
  · exact (claim_C1_idempotent_acceptance.2 hmacStub "sec" parseASE "T" "T"
      [sampleSessionRow] LinearAgent.initialState "00" "raw" "s1" sampleASEPayload
      (by decide) (by decide) rfl (by decide) (by decide) (by decide) (by decide)
      (by decide)).2.2.2.1

/-- A concrete duplicate delivery to the Linear agent: the sessions table is
unchanged, yet `setState` runs again and the responder is scheduled again,
refuting the claim that a duplicate performs no state update, no publish and
no responder scheduling. -/
theorem claim_C1_counterexample :
    (LinearAgent.onRequest hmacStub "sec" parseASE "T" "T" [sampleSessionRow]
        LinearAgent.initialState ⟨"POST", some "00", "raw"⟩).rows = [sampleSessionRow] ∧
    (LinearAgent.onRequest hmacStub "sec" parseASE "T" "T" [sampleSessionRow]
        LinearAgent.initialState ⟨"POST", some "00", "raw"⟩).effects.stateSet = true ∧
    (LinearAgent.onRequest hmacStub "sec" parseASE "T" "T" [sampleSessionRow]
        LinearAgent.initialState ⟨"POST", some "00", "raw"⟩).effects.responderScheduled = true := by
  decide

/-- Instantiation of the ordering theorem with a concrete compliant engine
ordering: for two rows with strictly increasing timestamps the first row
`getEvents` returns is the most recently accepted one, and the Linear query
result is sorted. -/
theorem claim_C5_witness :
    (GitHubAgent.getEvents (sortDescRevTies EventRow.timestamp)
        [sampleEventRow, sampleEventRow2] 20 0).head? = some sampleEventRow2 ∧
    (LinearAgent.getSessions (sortDescRevTies SessionRow.timestamp)
        [sampleSessionRow] 20 0).Pairwise
      (fun a b => timestampLe b.timestamp a.timestamp = true) := by
  constructor
  · exact (claim_C5_query_ordering.1 (sortDescRevTies EventRow.timestamp)
      (sortDescRevTies_spec EventRow.timestamp)).2.2 [sampleEventRow, sampleEventRow2] 20
      (by decide) (by decide) (by decide)
  · exact claim_C5_query_ordering.2 (sortDescRevTies SessionRow.timestamp)
      (sortDescRevTies_spec SessionRow.timestamp) [sampleSessionRow] 20 0

/-- Two distinct rows with equal timestamps: the reverse-tie engine ordering
satisfies the `ORDER BY timestamp DESC` contract on every input, yet
`getEvents` under it returns the tied rows in reverse insertion order,
refuting the claim that ties are always broken by insertion order
(stability). -/
theorem claim_C5_counterexample :
    IsSortedDescBy EventRow.timestamp [tieRowA, tieRowB]
      (sortDescRevTies EventRow.timestamp [tieRowA, tieRowB]) ∧
    GitHubAgent.getEvents (sortDescRevTies EventRow.timestamp) [tieRowA, tieRowB] 20 0 =
      [tieRowB, tieRowA] ∧
    tieRowB ≠ tieRowA := by
  exact ⟨sortDescRevTies_spec EventRow.timestamp [tieRowA, tieRowB], by decide, by decide⟩

/-- C2: a POST whose signature header is missing or whose signature fails
verification is answered 401, with the ledger and state untouched and no
dedup lookup, no body parse, no insert, no state update and no responder run
— in both agents. -/
theorem claim_C2_signature_rejection :
    (∀ (hmac : String → String → List Nat) (secret : String) (parse : String → Option Json)
      (now1 now2 : String) (hevt : Except String Unit) (rows : List EventRow)
      (state : AgentState) (req : GHRequest),
      req.method = "POST" →
      (req.xHubSignature256 = none ∨
        ∃ s, req.xHubSignature256 = some s ∧
          GitHubAgent.verifySignature hmac secret req.body s = false) →
      (GitHubAgent.onRequest hmac secret parse now1 now2 hevt rows state req).result =
        .response 401 "Invalid signature" ∧
      (GitHubAgent.onRequest hmac secret parse now1 now2 hevt rows state req).rows = rows ∧
      (GitHubAgent.onRequest hmac secret parse now1 now2 hevt rows state req).state = state ∧
      (GitHubAgent.onRequest hmac secret parse now1 now2 hevt rows state req).effects =
        noEffects) ∧
    (∀ (hmac : String → String → List Nat) (secret : String) (parse : String → Option Json)
      (now1 now2 : String) (rows : List SessionRow) (state : LinearAgentState)
      (req : LinearRequest),
      req.method = "POST" →
      (req.linearSignature = none ∨
        ∃ s, req.linearSignature = some s ∧
          LinearAgent.verifySignature hmac secret req.body s = false) →
      (LinearAgent.onRequest hmac secret parse now1 now2 rows state req).result =
        .response 401 "Invalid signature" ∧
      (LinearAgent.onRequest hmac secret parse now1 now2 rows state req).rows = rows ∧
      (LinearAgent.onRequest hmac secret parse now1 now2 rows state req).state = state ∧
      (LinearAgent.onRequest hmac secret parse now1 now2 rows state req).effects =
        noEffects) := by
  constructor
  · intro hmac secret parse now1 now2 hevt rows state req hpost hsig
    rw [gh_unauthorized hmac secret parse now1 now2 hevt rows state req hpost hsig]
    exact ⟨rfl, rfl, rfl, rfl⟩
  · intro hmac secret parse now1 now2 rows state req hpost hsig
    rw [linear_unauthorized hmac secret parse now1 now2 rows state req hpost hsig]
    exact ⟨rfl, rfl, rfl, rfl⟩

/-- Instantiation of the signature-rejection theorem on concrete forged
requests against both agents. -/
theorem claim_C2_witness :
    (GitHubAgent.onRequest hmacStub "sec" parseFail "T" "T" (.ok ()) [sampleEventRow]
        GitHubAgent.initialState
        ⟨"POST", some "bad", some "d9", some "issues", "raw"⟩).effects = noEffects ∧
    (LinearAgent.onRequest hmacStub "sec" parseFail "T" "T" [sampleSessionRow]
        LinearAgent.initialState ⟨"POST", none, "raw"⟩).effects = noEffects := by
  constructor
  · exact (claim_C2_signature_rejection.1 hmacStub "sec" parseFail "T" "T" (.ok ())
      [sampleEventRow] GitHubAgent.initialState
      ⟨"POST", some "bad", some "d9", some "issues", "raw"⟩ rfl
      (Or.inr ⟨"bad", rfl, by decide⟩)).2.2.2
  · exact (claim_C2_signature_rejection.2 hmacStub "sec" parseFail "T" "T"
      [sampleSessionRow] LinearAgent.initialState ⟨"POST", none, "raw"⟩ rfl
      (Or.inl rfl)).2.2.2

/-- Appending a row whose timestamp strictly exceeds every existing one makes
it the maximum-timestamp row. -/
theorem maxByTimestamp_append_max (rows : List EventRow) (row : EventRow)
    (h : ∀ r ∈ rows, timestampLe row.timestamp r.timestamp = false) :
    maxByTimestamp (rows ++ [row]) = some row := by
  induction rows with
  | nil => rfl
  | cons r rest ih =>
    have hr := h r (by simp)
    have hrest : ∀ x ∈ rest, timestampLe row.timestamp x.timestamp = false :=
      fun x hx => h x (by simp [hx])
    rw [List.cons_append, maxByTimestamp, ih hrest]
    have hle : timestampLe r.timestamp row.timestamp = true := by
      rcases Bool.or_eq_true_iff.mp (lexLe_total row.timestamp.data r.timestamp.data) with h1 | h1
      · rw [show timestampLe row.timestamp r.timestamp = lexLe row.timestamp.data r.timestamp.data
          from rfl, h1] at hr
        exact absurd hr (by simp)
      · exact h1
    simp [hle]

/-- C4 (amended): after every successful insert the published state's
`eventCount` equals the ledger's total row count, and the published
`lastEvent` carries the type and action of the row with maximum `timestamp`
(the freshly inserted row, whose timestamp strictly exceeds all earlier
ones); the published `lastEvent.timestamp` however is a second clock reading
taken at publish time, so the published state equals the spec projection of
the ledger exactly when the two clock readings of the request coincide.
Before the first event the state is the projection of the empty ledger
(count 0, `lastEvent` null). -/
theorem claim_C4_summary_projection :
    GitHubAgent.initialState = projectSummary [] ∧
    (∀ (hmac : String → String → List Nat) (secret : String) (parse : String → Option Json)
      (now1 now2 : String) (hevt : Except String Unit) (rows : List EventRow)
      (state : AgentState) (sig d et body : String) (payload : Json),
      GitHubAgent.verifySignature hmac secret body sig = true → sig ≠ "" → et ≠ "" → d ≠ "" →
      (rows.filter (fun r => r.id == d)).length = 0 →
      parse body = some payload →
      (∀ r ∈ rows, timestampLe now1 r.timestamp = false) →
      (GitHubAgent.onRequest hmac secret parse now1 now2 hevt rows state
          ⟨"POST", some sig, some d, some et, body⟩).state.eventCount =
        (GitHubAgent.onRequest hmac secret parse now1 now2 hevt rows state
          ⟨"POST", some sig, some d, some et, body⟩).rows.length ∧
      (GitHubAgent.onRequest hmac secret parse now1 now2 hevt rows state
          ⟨"POST", some sig, some d, some et, body⟩).state.eventCount = rows.length + 1 ∧
      (maxByTimestamp (GitHubAgent.onRequest hmac secret parse now1 now2 hevt rows state
          ⟨"POST", some sig, some d, some et, body⟩).rows).map (fun r => (r.type, r.action)) =
        some (et, ((payload.get? "action").bind Json.asString?).getD "") ∧
      (GitHubAgent.onRequest hmac secret parse now1 now2 hevt rows state
          ⟨"POST", some sig, some d, some et, body⟩).state.lastEvent.map
            (fun e => (e.type, e.action)) =
        some (et, ((payload.get? "action").bind Json.asString?).getD "") ∧
      (now2 = now1 →
        (GitHubAgent.onRequest hmac secret parse now1 now2 hevt rows state
          ⟨"POST", some sig, some d, some et, body⟩).state =
        projectSummary (GitHubAgent.onRequest hmac secret parse now1 now2 hevt rows state
          ⟨"POST", some sig, some d, some et, body⟩).rows)) := by
  constructor
  · rfl
  · intro hmac secret parse now1 now2 hevt rows state sig d et body payload hv hsig het hd
      hfresh hparse hmono
    rw [gh_accept hmac secret parse now1 now2 hevt rows state sig d et body payload hv hsig het
      hd hfresh hparse]
    have hmax : maxByTimestamp (rows ++ [ghRowOf d et body payload now1]) =
        some (ghRowOf d et body payload now1) :=
      maxByTimestamp_append_max rows (ghRowOf d et body payload now1) hmono
    refine ⟨rfl, by simp, ?_, rfl, ?_⟩
    · rw [hmax]
      rfl
    · intro h2
      subst h2
      show AgentState.mk _ _ = projectSummary _
      unfold projectSummary
      rw [hmax]
      rfl

/-- Instantiation of the summary-projection theorem on a concrete first
delivery with coinciding clock readings. -/
theorem claim_C4_witness :
    (GitHubAgent.onRequest hmacStub "sec" parseEmptyObj "T" "T" (.ok ()) []
        GitHubAgent.initialState
        ⟨"POST", some "sha256=00", some "d1", some "issues", "raw"⟩).state =
      projectSummary (GitHubAgent.onRequest hmacStub "sec" parseEmptyObj "T" "T" (.ok ()) []
        GitHubAgent.initialState
        ⟨"POST", some "sha256=00", some "d1", some "issues", "raw"⟩).rows := by
  exact (claim_C4_summary_projection.2 hmacStub "sec" parseEmptyObj "T" "T" (.ok ()) []
    GitHubAgent.initialState "sha256=00" "d1" "issues" "raw" (Json.obj [])
    (by decide) (by decide) (by decide) (by decide) (by decide) rfl
    (by simp)).2.2.2.2 rfl

/-- A concrete accepted delivery whose two clock readings differ: the
published `lastEvent` timestamp is the publish-time reading, not the stored
row's `timestamp`, so the published state is not the projection of the
ledger, refuting the claim that `last_event` always equals the
type/action/timestamp derived from the maximum-`received_at` row. -/
theorem claim_C4_counterexample :
    (GitHubAgent.onRequest hmacStub "sec" parseEmptyObj "2024-01-01T00:00:00.000Z"
        "2024-01-01T00:00:00.001Z" (.ok ()) [] GitHubAgent.initialState
        ⟨"POST", some "sha256=00", some "d1", some "issues", "raw"⟩).state ≠
      projectSummary (GitHubAgent.onRequest hmacStub "sec" parseEmptyObj
        "2024-01-01T00:00:00.000Z" "2024-01-01T00:00:00.001Z" (.ok ()) []
        GitHubAgent.initialState
        ⟨"POST", some "sha256=00", some "d1", some "issues", "raw"⟩).rows := by
  decide

/-- C6: once the insert has succeeded, the acceptance outcome is independent
of the responder: the GitHub handler returns 200 "OK" with the same stored
row and state whether or not `handleEvent` throws (the error is only
logged); and the Linear `handleSession` never lets an exception escape,
attempts at most one best-effort error notification, and its outcome is
unchanged when that notification itself fails. -/
theorem claim_C6_responder_containment :
    (∀ (hmac : String → String → List Nat) (secret : String) (parse : String → Option Json)
      (now1 now2 : String) (e1 e2 : Except String Unit) (rows : List EventRow)
      (state : AgentState) (sig d et body : String) (payload : Json),
      GitHubAgent.verifySignature hmac secret body sig = true → sig ≠ "" → et ≠ "" → d ≠ "" →
      (rows.filter (fun r => r.id == d)).length = 0 →
      parse body = some payload →
      (GitHubAgent.onRequest hmac secret parse now1 now2 e1 rows state
          ⟨"POST", some sig, some d, some et, body⟩).result = .response 200 "OK" ∧
      (GitHubAgent.onRequest hmac secret parse now1 now2 e1 rows state
          ⟨"POST", some sig, some d, some et, body⟩).rows =
        (GitHubAgent.onRequest hmac secret parse now1 now2 e2 rows state
          ⟨"POST", some sig, some d, some et, body⟩).rows ∧
      (GitHubAgent.onRequest hmac secret parse now1 now2 e1 rows state
          ⟨"POST", some sig, some d, some et, body⟩).state =
        (GitHubAgent.onRequest hmac secret parse now1 now2 e2 rows state
          ⟨"POST", some sig, some d, some et, body⟩).state) ∧
    (∀ (action : String) (thoughtFails responseFails errorFails : Bool),
      (LinearAgent.handleSession action thoughtFails responseFails errorFails).escaped = false ∧
      (LinearAgent.handleSession action thoughtFails responseFails errorFails).errorNotes ≤ 1 ∧
      LinearAgent.handleSession action thoughtFails responseFails true =
        LinearAgent.handleSession action thoughtFails responseFails false) := by
  constructor
  · intro hmac secret parse now1 now2 e1 e2 rows state sig d et body payload hv hsig het hd
      hfresh hparse
    rw [gh_accept hmac secret parse now1 now2 e1 rows state sig d et body payload hv hsig het
      hd hfresh hparse,
      gh_accept hmac secret parse now1 now2 e2 rows state sig d et body payload hv hsig het
      hd hfresh hparse]
    exact ⟨rfl, rfl, rfl⟩
  · intro action thoughtFails responseFails errorFails
    unfold LinearAgent.handleSession
    cases thoughtFails <;> cases responseFails <;> split <;> simp

/-- Instantiation of the responder-containment theorem: a failing
`handleEvent` still yields the same stored row as a succeeding one, and a
failing `emitError` leaves `handleSession`'s outcome unchanged. -/
theorem claim_C6_witness :
    (GitHubAgent.onRequest hmacStub "sec" parseEmptyObj "T" "T" (.error "boom") []
        GitHubAgent.initialState
        ⟨"POST", some "sha256=00", some "d1", some "issues", "raw"⟩).rows =
      (GitHubAgent.onRequest hmacStub "sec" parseEmptyObj "T" "T" (.ok ()) []
        GitHubAgent.initialState
        ⟨"POST", some "sha256=00", some "d1", some "issues", "raw"⟩).rows ∧
    (LinearAgent.handleSession "created" true false true).escaped = false := by
  constructor
  · exact (claim_C6_responder_containment.1 hmacStub "sec" parseEmptyObj "T" "T"
      (.error "boom") (.ok ()) [] GitHubAgent.initialState "sha256=00" "d1" "issues" "raw"
      (Json.obj []) (by decide) (by decide) (by decide) (by decide) (by decide) rfl).2.1
  · exact (claim_C6_responder_containment.2 "created" true false true).1

/-- C7 (amended): a correctly signed POST whose body is not valid JSON stores
no row, changes no state and schedules no responder in either agent; the
Linear agent rejects it with a 400 client error, but the GitHub agent does
not produce a 4xx response — its uncaught `JSON.parse` exception escapes
`onRequest` (a server-error outcome).  (The GitHub HTTP front door separately
rejects malformed JSON with a 400 before reaching the agent on the webhook
route.) -/
theorem claim_C7_malformed_json :
    (∀ (hmac : String → String → List Nat) (secret : String) (parse : String → Option Json)
      (now1 now2 : String) (rows : List SessionRow) (state : LinearAgentState)
      (sig body : String),
      LinearAgent.verifySignature hmac secret body sig = true → sig ≠ "" →
      parse body = none →
      (LinearAgent.onRequest hmac secret parse now1 now2 rows state
          ⟨"POST", some sig, body⟩).result = .response 400 "Invalid JSON" ∧
      (LinearAgent.onRequest hmac secret parse now1 now2 rows state
          ⟨"POST", some sig, body⟩).rows = rows ∧
      (LinearAgent.onRequest hmac secret parse now1 now2 rows state
          ⟨"POST", some sig, body⟩).state = state ∧
      (LinearAgent.onRequest hmac secret parse now1 now2 rows state
          ⟨"POST", some sig, body⟩).effects.rowInserted = false ∧
      (LinearAgent.onRequest hmac secret parse now1 now2 rows state
          ⟨"POST", some sig, body⟩).effects.stateSet = false ∧
      (LinearAgent.onRequest hmac secret parse now1 now2 rows state
          ⟨"POST", some sig, body⟩).effects.responderScheduled = false) ∧
    (∀ (hmac : String → String → List Nat) (secret : String) (parse : String → Option Json)
      (now1 now2 : String) (hevt : Except String Unit) (rows : List EventRow)
      (state : AgentState) (sig d et body : String),
      GitHubAgent.verifySignature hmac secret body sig = true → sig ≠ "" → et ≠ "" → d ≠ "" →
      (rows.filter (fun r => r.id == d)).length = 0 →
      parse body = none →
      (GitHubAgent.onRequest hmac secret parse now1 now2 hevt rows state
          ⟨"POST", some sig, some d, some et, body⟩).result = .thrown ∧
      (GitHubAgent.onRequest hmac secret parse now1 now2 hevt rows state
          ⟨"POST", some sig, some d, some et, body⟩).rows = rows ∧
      (GitHubAgent.onRequest hmac secret parse now1 now2 hevt rows state
          ⟨"POST", some sig, some d, some et, body⟩).state = state ∧
      (GitHubAgent.onRequest hmac secret parse now1 now2 hevt rows state
          ⟨"POST", some sig, some d, some et, body⟩).effects.rowInserted = false ∧
      (GitHubAgent.onRequest hmac secret parse now1 now2 hevt rows state
          ⟨"POST", some sig, some d, some et, body⟩).effects.stateSet = false ∧
      (GitHubAgent.onRequest hmac secret parse now1 now2 hevt rows state
          ⟨"POST", some sig, some d, some et, body⟩).effects.responderScheduled = false) := by
  constructor
  · intro hmac secret parse now1 now2 rows state sig body hv hsig hparse
    rw [linear_invalid_json hmac secret parse now1 now2 rows state sig body hv hsig hparse]
    exact ⟨rfl, rfl, rfl, rfl, rfl, rfl⟩
  · intro hmac secret parse now1 now2 hevt rows state sig d et body hv hsig het hd hfresh hparse
    rw [gh_thrown hmac secret parse now1 now2 hevt rows state sig d et body hv hsig het hd
      hfresh hparse]
    exact ⟨rfl, rfl, rfl, rfl, rfl, rfl⟩

/-- Instantiation of the malformed-JSON theorem on concrete requests. -/
theorem claim_C7_witness :
    (LinearAgent.onRequest hmacStub "sec" parseFail "T" "T" [sampleSessionRow]
        LinearAgent.initialState ⟨"POST", some "00", "oops"⟩).result =
      HttpOutcome.response 400 "Invalid JSON" ∧
    (GitHubAgent.onRequest hmacStub "sec" parseFail "T" "T" (.ok ()) []
        GitHubAgent.initialState
        ⟨"POST", some "sha256=00", some "d1", some "issues", "oops"⟩).rows = [] := by
  constructor
  · exact (claim_C7_malformed_json.1 hmacStub "sec" parseFail "T" "T" [sampleSessionRow]
      LinearAgent.initialState "00" "oops" (by decide) (by decide) rfl).1
  · exact (claim_C7_malformed_json.2 hmacStub "sec" parseFail "T" "T" (.ok ()) []
      GitHubAgent.initialState "sha256=00" "d1" "issues" "oops" (by decide) (by decide)
      (by decide) (by decide) (by decide) rfl).2.1

/-- A concrete correctly signed POST with a malformed body to the GitHub
agent: `onRequest` ends in an escaped exception, not in any 4xx response,
refuting the claim that the tenant actor rejects such a request as a 4xx
client error. -/
theorem claim_C7_counterexample :
    (GitHubAgent.onRequest hmacStub "sec" parseFail "T" "T" (.ok ()) []
        GitHubAgent.initialState
        ⟨"POST", some "sha256=00", some "d1", some "issues", "oops"⟩).result =
      HttpOutcome.thrown := by
  decide

/-- C8 (amended): `onStart` performs idempotent schema creation only — it
leaves the stored rows untouched, marks the schema ready, and running the
migration twice equals running it once; the Summary State it leaves
observable is the framework-persisted cached value (or `initialState` when
none was persisted), not a recomputation from the Ledger. -/
theorem claim_C8_initialization :
    (∀ (s : GHStorage) (persisted : Option AgentState),
      (GitHubAgent.onStart s persisted).1.rows = s.rows ∧
      (GitHubAgent.onStart s persisted).1.schemaReady = true ∧
      (GitHubAgent.onStart s persisted).2 = persisted.getD GitHubAgent.initialState) ∧
    (∀ s : GHStorage, migrateEvents (migrateEvents s) = migrateEvents s) := by
  exact ⟨fun s persisted => ⟨rfl, rfl, rfl⟩, fun s => rfl⟩

/-- A cold start over a Ledger holding one row, with no persisted state: the
observable `eventCount` is 0 while the Ledger holds 1 row, refuting the
claim that initialization recomputes the Summary State from the Ledger. -/
theorem claim_C8_counterexample :
    (GitHubAgent.onStart ⟨false, [sampleEventRow]⟩ none).2.eventCount = 0 ∧
    (GitHubAgent.onStart ⟨false, [sampleEventRow]⟩ none).1.rows.length = 1 := by
  decide

/-- C9 (amended): an unrecognized event type produces title `"<type> event"`
with empty description and url, and the actor is always the sender's login
when present and `"unknown"` otherwise; issue and pull-request descriptions
are stored truncated to their first 500 characters; a push event's
description (the first commit message) is stored untruncated. -/
theorem claim_C9_classifier :
    (∀ (payload : Json) (et : String), et ≠ "issues" → et ≠ "pull_request" → et ≠ "push" →
      GitHubAgent.extractEventInfo et payload =
        ⟨et ++ " event", "", "",
          (((payload.get? "sender").bind (·.get? "login")).bind Json.asString?).getD
            "unknown"⟩) ∧
    (∀ (payload : Json) (et : String),
      (GitHubAgent.extractEventInfo et payload).actor =
        (((payload.get? "sender").bind (·.get? "login")).bind Json.asString?).getD
          "unknown") ∧
    (∀ (payload : Json) (b : String),
      ((payload.get? "issue").bind (·.get? "body")).bind Json.asString? = some b →
      (GitHubAgent.extractEventInfo "issues" payload).description =
        String.mk (b.data.take 500)) ∧
    (∀ (payload : Json) (b : String),
      ((payload.get? "pull_request").bind (·.get? "body")).bind Json.asString? = some b →
      (GitHubAgent.extractEventInfo "pull_request" payload).description =
        String.mk (b.data.take 500)) ∧
    (∀ (payload : Json) (m : String), firstCommitMessage payload = some m →
      (GitHubAgent.extractEventInfo "push" payload).description = m) := by
  refine ⟨?_, ?_, ?_, ?_, ?_⟩
  · intro payload et h1 h2 h3
    unfold GitHubAgent.extractEventInfo
    rw [if_neg h1, if_neg h2, if_neg h3]
  · intro payload et
    unfold GitHubAgent.extractEventInfo
    by_cases h1 : et = "issues"
    · rw [if_pos h1]
    · rw [if_neg h1]
      by_cases h2 : et = "pull_request"
      · rw [if_pos h2]
      · rw [if_neg h2]
        by_cases h3 : et = "push"
        · rw [if_pos h3]
        · rw [if_neg h3]
  · intro payload b hb
    unfold GitHubAgent.extractEventInfo
    rw [if_pos rfl]
    simp [hb]
  · intro payload b hb
    unfold GitHubAgent.extractEventInfo
    rw [if_neg (by decide), if_pos rfl]
    simp [hb]
  · intro payload m hm
    unfold GitHubAgent.extractEventInfo
    rw [if_neg (by decide), if_neg (by decide), if_pos rfl]
    simp [hm]

/-- Instantiation of the classifier theorem: unknown-type fallback on a
concrete payload, and exact 500-character truncation of a long issue body. -/
theorem claim_C9_witness :
    GitHubAgent.extractEventInfo "watch" (Json.obj []) =
      ⟨"watch event", "", "", "unknown"⟩ ∧
    (GitHubAgent.extractEventInfo "issues"
        (Json.obj [("issue", Json.obj [("body", Json.str longPushMessage)])])).description =
      String.mk (longPushMessage.data.take 500) := by
  constructor
  · exact (claim_C9_classifier.1 (Json.obj []) "watch" (by decide) (by decide) (by decide))
  · exact (claim_C9_classifier.2.2.1
      (Json.obj [("issue", Json.obj [("body", Json.str longPushMessage)])])
      longPushMessage rfl)

set_option maxRecDepth 4000 in
/-- A concrete push event whose first commit message has 501 characters: the
stored description is the full 501-character message, not its first 500
characters, refuting the claim that every over-long description is stored
truncated to exactly 500 characters. -/
theorem claim_C9_counterexample :
    (GitHubAgent.extractEventInfo "push" samplePushPayload).description = longPushMessage ∧
    longPushMessage ≠ String.mk (longPushMessage.data.take 500) := by
  constructor
  · rfl
  · decide

/-- C10: a correctly signed POST to the Linear agent whose body parses to a
payload with top-level `type` different from `"AgentSessionEvent"` is
answered 200 OK while nothing is touched: no insert, no state update, no
responder scheduling. -/
theorem claim_C10_linear_type_filter :
    ∀ (hmac : String → String → List Nat) (secret : String) (parse : String → Option Json)
      (now1 now2 : String) (rows : List SessionRow) (state : LinearAgentState)
      (sig body : String) (payload : Json),
      LinearAgent.verifySignature hmac secret body sig = true → sig ≠ "" →
      parse body = some payload → payloadTypeIsASE payload = false →
      (LinearAgent.onRequest hmac secret parse now1 now2 rows state
          ⟨"POST", some sig, body⟩).result = .response 200 "OK" ∧
      (LinearAgent.onRequest hmac secret parse now1 now2 rows state
          ⟨"POST", some sig, body⟩).rows = rows ∧
      (LinearAgent.onRequest hmac secret parse now1 now2 rows state
          ⟨"POST", some sig, body⟩).state = state ∧
      (LinearAgent.onRequest hmac secret parse now1 now2 rows state
          ⟨"POST", some sig, body⟩).effects.rowInserted = false ∧
      (LinearAgent.onRequest hmac secret parse now1 now2 rows state
          ⟨"POST", some sig, body⟩).effects.stateSet = false ∧
      (LinearAgent.onRequest hmac secret parse now1 now2 rows state
          ⟨"POST", some sig, body⟩).effects.responderScheduled = false := by
  intro hmac secret parse now1 now2 rows state sig body payload hv hsig hparse hty
  rw [linear_filtered hmac secret parse now1 now2 rows state sig body payload hv hsig hparse hty]
  exact ⟨rfl, rfl, rfl, rfl, rfl, rfl⟩

/-- Instantiation of the type-filter theorem on a concrete non-session
payload. -/
theorem claim_C10_witness :
    (LinearAgent.onRequest hmacStub "sec" parseOtherType "T" "T" [sampleSessionRow]
        LinearAgent.initialState ⟨"POST", some "00", "raw"⟩).rows = [sampleSessionRow] ∧
    (LinearAgent.onRequest hmacStub "sec" parseOtherType "T" "T" [sampleSessionRow]
        LinearAgent.initialState ⟨"POST", some "00", "raw"⟩).result =
      HttpOutcome.response 200 "OK" := by
  constructor
  · exact (claim_C10_linear_type_filter hmacStub "sec" parseOtherType "T" "T"
      [sampleSessionRow] LinearAgent.initialState "00" "raw" (Json.obj [("type", Json.str "Issue")])
      (by decide) (by decide) rfl (by decide)).2.1
  · exact (claim_C10_linear_type_filter hmacStub "sec" parseOtherType "T" "T"
      [sampleSessionRow] LinearAgent.initialState "00" "raw" (Json.obj [("type", Json.str "Issue")])
      (by decide) (by decide) rfl (by decide)).1
